import Mathlib

/-!
Shallow embedding of the Windows hotplug monitoring core of libusb
(windows event thread, discovery reconciler, lifecycle controller),
with theorems checking the design specification against it.

The embedding models the file that defines `windows_start_event_monitor`,
`windows_stop_event_monitor`, `windows_get_device_list`,
`windows_refresh_device_list`, `windows_refresh_device_list_for_all_ctx`,
`windows_event_thread_main`, `init_wnd_class`,
`register_device_interface_to_window_handle` and `windows_proc_callback`.
OS calls (CreateThread, RegisterClass, CreateWindow,
RegisterDeviceNotification, SendMessage, WaitForSingleObject, CloseHandle)
are oracles: a record of booleans says which of them succeed.
-/

/-- `LIBUSB_SUCCESS` return code. -/
def LIBUSB_SUCCESS : Int := 0

/-- `LIBUSB_ERROR_OTHER` return code. -/
def LIBUSB_ERROR_OTHER : Int := -99

/-- The per-device `discovery_status` field of `winusb_device_priv`. -/
inductive DiscoveryStatus where
  | NOT_YET_SEEN
  | STILL_PRESENT
  | NEWLY_DISCOVERED
  | NO_LONGER_DISCOVERED
deriving DecidableEq, Repr

/-- One entry of a context's device list: its identity key and the
`winusb_device_priv` fields the hotplug code reads. -/
structure Device where
  id : Nat
  discovery_status : DiscoveryStatus
  initialized : Bool
deriving DecidableEq, Repr

/-- The externally visible calls the reconciler makes for one device:
`usbi_disconnect_device`, `usbi_detach_device`, and
`usbi_hotplug_notification(ctx, dev, LIBUSB_HOTPLUG_EVENT_DEVICE_ARRIVED)`.
Per the surrounding library's contract the first two remove the entry from
the context's list, the first notifying the application, the second silent. -/
inductive HotplugEvent where
  | disconnect (id : Nat)
  | detach (id : Nat)
  | arrived (id : Nat)
deriving DecidableEq, Repr

/-- A backend `get_device_list` routine (the Device Enumerator Adapter):
it rewrites the context's device list in place and returns a libusb code. -/
def Backend : Type := List Device → List Device × Int

/-- The `for_each_device` loop at the top of `windows_get_device_list`:
every device of the context is tagged `NO_LONGER_DISCOVERED`. -/
def markNoLongerDiscovered (devs : List Device) : List Device :=
  devs.map fun d => { d with discovery_status := .NO_LONGER_DISCOVERED }

/-- `windows_get_device_list`: tag every known device
`NO_LONGER_DISCOVERED`, then hand the list to the backend's
`get_device_list`. -/
def windows_get_device_list (backend : Backend) (devs : List Device) :
    List Device × Int :=
  backend (markNoLongerDiscovered devs)

/-- The event the removal loop raises for one stale device:
`usbi_disconnect_device` when `initialized`, else `usbi_detach_device`. -/
def removalEvent (d : Device) : HotplugEvent :=
  if d.initialized then .disconnect d.id else .detach d.id

/-- The `for_each_device_safe` loop of `windows_refresh_device_list`:
every device still tagged `NO_LONGER_DISCOVERED` is removed from the list,
raising `usbi_disconnect_device` when `initialized` and
`usbi_detach_device` otherwise; other devices are skipped. -/
def removalPass : List Device → List Device × List HotplugEvent
  | [] => ([], [])
  | d :: rest =>
    let tail := removalPass rest
    if d.discovery_status = .NO_LONGER_DISCOVERED then
      (tail.1, removalEvent d :: tail.2)
    else
      (d :: tail.1, tail.2)

/-- The second `for_each_device` loop of `windows_refresh_device_list`:
an arrival notification for every device tagged `NEWLY_DISCOVERED`. -/
def arrivalPass (devs : List Device) : List HotplugEvent :=
  (devs.filter fun d => d.discovery_status = .NEWLY_DISCOVERED).map
    fun d => .arrived d.id

/-- `windows_refresh_device_list`: re-enumerate via
`windows_get_device_list`; on failure log and return with no further
mutation; on success run the removal loop, then the arrival loop.
The result is the context's device list afterwards, with the ordered
trace of events the pass raised. -/
def windows_refresh_device_list (backend : Backend) (devs : List Device) :
    List Device × List HotplugEvent :=
  let scan := windows_get_device_list backend devs
  if scan.2 ≠ LIBUSB_SUCCESS then
    (scan.1, [])
  else
    let removed := removalPass scan.1
    (removed.1, removed.2 ++ arrivalPass removed.1)

/-- Actions of `windows_refresh_device_list_for_all_ctx`:
taking and releasing `active_contexts_lock`, and one reconciliation call
per context (by position in the registry). -/
inductive RegistryAction where
  | lockAcquire
  | refreshCtx (i : Nat)
  | lockRelease
deriving DecidableEq, Repr

/-- The `for_each_context` loop body of
`windows_refresh_device_list_for_all_ctx`: refresh context `i`, then the
rest, collecting the per-context reconciliation actions. -/
def refreshLoop (backend : Nat → Backend) :
    Nat → List (List Device) → List (List Device) × List RegistryAction
  | _, [] => ([], [])
  | i, c :: cs =>
    let r := windows_refresh_device_list (backend i) c
    let rest := refreshLoop backend (i + 1) cs
    (r.1 :: rest.1, .refreshCtx i :: rest.2)

/-- `windows_refresh_device_list_for_all_ctx`: take
`active_contexts_lock`, refresh every active context in registry order,
release the lock. `backend i` is context `i`'s enumerator. -/
def windows_refresh_device_list_for_all_ctx (backend : Nat → Backend)
    (ctxs : List (List Device)) : List (List Device) × List RegistryAction :=
  let r := refreshLoop backend 0 ctxs
  (r.1, .lockAcquire :: (r.2 ++ [.lockRelease]))

/-- Which OS calls succeed in one run: the oracle for the Windows API. -/
structure OsEnv where
  createThreadOk : Bool
  registerClassOk : Bool
  createWindowOk : Bool
  registerNotificationOk : Bool
  sendMessageOk : Bool
  waitObjectOk : Bool
  closeHandleOk : Bool
deriving DecidableEq, Repr

/-- `init_wnd_class`: succeeds when `RegisterClass` does. -/
def init_wnd_class (env : OsEnv) : Bool := env.registerClassOk

/-- `register_device_interface_to_window_handle`: succeeds when
`RegisterDeviceNotification` does. -/
def register_device_interface_to_window_handle (env : OsEnv) : Bool :=
  env.registerNotificationOk

/-- The `CreateWindow` call of the event thread: it succeeds when the OS
call does and the `WM_CREATE` handler of `windows_proc_callback` accepts,
i.e. `register_device_interface_to_window_handle` subscribed. -/
def createWindowResult (env : OsEnv) : Bool :=
  env.createWindowOk && register_device_interface_to_window_handle env

/-- Outcome of the startup section of the event thread: whether
`windows_event_hWnd` got a window, whether the thread reached its
`GetMessage` wait loop, and its exit status when it exited before. -/
structure ThreadStartup where
  hWndSet : Bool
  reachedLoop : Bool
  exitCode : Option Int
deriving DecidableEq, Repr

/-- The startup section of `windows_event_thread_main`: register the
window class, create the hidden notification window (which subscribes via
`WM_CREATE`), and only then enter the `GetMessage` wait loop; a failure of
either step makes the thread return `(DWORD)-1` at once, never reaching
the loop and leaving `windows_event_hWnd` null. -/
def windows_event_thread_main (env : OsEnv) : ThreadStartup :=
  if init_wnd_class env = false then
    ⟨false, false, some (-1)⟩
  else if createWindowResult env = false then
    ⟨false, false, some (-1)⟩
  else
    ⟨true, true, none⟩

/-- The file-scope state the lifecycle controller works with:
`windows_event_hWnd` (is it non-null), `windows_event_thread_handle`
(is it non-null), and whether the monitor thread is still running. -/
structure MonitorState where
  windows_event_hWnd : Bool
  windows_event_thread_handle : Bool
  threadRunning : Bool
deriving DecidableEq, Repr

/-- The statics before `windows_start_event_monitor` ever ran:
both handles null, no thread. -/
def initialMonitorState : MonitorState := ⟨false, false, false⟩

/-- `windows_start_event_monitor`: `CreateThread`; when that fails, log
and return `LIBUSB_ERROR_OTHER`; otherwise return `LIBUSB_SUCCESS` at
once — the thread's own startup outcome is not awaited or checked.
The returned state is the stable state after the thread's startup section
has run. -/
def windows_start_event_monitor (env : OsEnv) : Int × MonitorState :=
  if env.createThreadOk = false then
    (LIBUSB_ERROR_OTHER, initialMonitorState)
  else
    let t := windows_event_thread_main env
    (LIBUSB_SUCCESS, ⟨t.hWndSet, true, t.reachedLoop⟩)

/-- The cleanup steps `windows_stop_event_monitor` can attempt:
`SendMessage(WM_CLOSE)` (which makes the thread unsubscribe and tear the
window down), `WaitForSingleObject` on the thread, and `CloseHandle`. -/
inductive StopStep where
  | sendClose
  | joinThread
  | closeThreadHandle
deriving DecidableEq, Repr

/-- What one `windows_stop_event_monitor` call did: its return code, the
cleanup steps it attempted in order, and the operation names it passed to
`log_error`. -/
structure StopResult where
  ret : Int
  steps : List StopStep
  logs : List String
deriving DecidableEq, Repr

/-- `windows_stop_event_monitor`: return `LIBUSB_SUCCESS` at once when
`windows_event_hWnd` is null; otherwise attempt all three cleanup steps
unconditionally. A `SendMessage` failure is only logged; a failed wait or
a failed `CloseHandle` is logged and turns the return value into
`LIBUSB_ERROR_OTHER` (the `CloseHandle` failure is logged under the
operation name "WaitForSingleObject", as in the source). -/
def windows_stop_event_monitor (env : OsEnv) (st : MonitorState) :
    StopResult :=
  if st.windows_event_hWnd = false then
    ⟨LIBUSB_SUCCESS, [], []⟩
  else
    let logs0 : List String :=
      if env.sendMessageOk = false then ["SendMessage"] else []
    let ret1 : Int :=
      if env.waitObjectOk = false then LIBUSB_ERROR_OTHER else LIBUSB_SUCCESS
    let logs1 : List String :=
      if env.waitObjectOk = false then ["WaitForSingleObject"] else []
    let ret2 : Int :=
      if env.closeHandleOk = false then LIBUSB_ERROR_OTHER else ret1
    let logs2 : List String :=
      if env.closeHandleOk = false then ["WaitForSingleObject"] else []
    ⟨ret2, [.sendClose, .joinThread, .closeThreadHandle],
      logs0 ++ logs1 ++ logs2⟩

/-- Modelled from the spec: the Device Enumerator Adapter (the backend's
`get_device_list`) is outside this repository. Per the specification it
is expected, for each physically present device, to set the matching
entry's status to `STILL_PRESENT`, or to insert a new entry tagged
`NEWLY_DISCOVERED`; entries of absent devices are left as they are.
`present` is the set of identity keys physically attached. -/
def adapter_get_device_list (present : List Nat) (devs : List Device) :
    List Device :=
  (devs.map fun d =>
    if d.id ∈ present then { d with discovery_status := .STILL_PRESENT }
    else d)
    ++ ((present.filter fun i => ¬ devs.any fun d => d.id = i).map
      fun i => ⟨i, .NEWLY_DISCOVERED, false⟩)

/-- The spec-modelled adapter as a backend that always succeeds. -/
def specBackend (present : List Nat) : Backend :=
  fun devs => (adapter_get_device_list present devs, LIBUSB_SUCCESS)

/-- A backend whose enumeration fails with the given code, leaving the
list as it found it. -/
def failingBackend (code : Int) : Backend := fun devs => (devs, code)

/-- Classifier: the events the removal loop can raise. -/
def isRemovalEvent : HotplugEvent → Bool
  | .disconnect _ => true
  | .detach _ => true
  | .arrived _ => false

/-- Classifier: the events the arrival loop raises. -/
def isArrivalEvent : HotplugEvent → Bool
  | .disconnect _ => false
  | .detach _ => false
  | .arrived _ => true

/-- Every OS call succeeds except `RegisterClass`. -/
def envRegisterClassFails : OsEnv := ⟨true, false, true, true, true, true, true⟩

/-- Every OS call succeeds except `SendMessage`. -/
def envSendMessageFails : OsEnv := ⟨true, true, true, true, false, true, true⟩

/-- The statics after a fully successful start: window and thread handle
set, thread waiting in its loop. -/
def startedMonitorState : MonitorState := ⟨true, true, true⟩

/-- A two-device context: device 1 and device 2, both already handed to
the application. -/
def devsW : List Device :=
  [⟨1, DiscoveryStatus.STILL_PRESENT, true⟩,
   ⟨2, DiscoveryStatus.NOT_YET_SEEN, true⟩]

/-- Context 0's enumeration fails, context 1's succeeds reporting
devices 1 and 3. -/
def backendMixed : Nat → Backend := fun i =>
  if i = 0 then failingBackend LIBUSB_ERROR_OTHER else specBackend [1, 3]

/-- A registry of two contexts holding the same initial device list. -/
def ctxsW : List (List Device) := [devsW, devsW]

/-- The removal loop keeps exactly the devices not tagged
`NO_LONGER_DISCOVERED`, in order. -/
theorem removalPass_fst (l : List Device) :
    (removalPass l).1 =
      l.filter fun d => d.discovery_status ≠ DiscoveryStatus.NO_LONGER_DISCOVERED := by
  induction l with
  | nil => rfl
  | cons d rest ih =>
    simp only [removalPass, List.filter_cons]
    split
    · next h => simp [h, ih]
    · next h => simp [h, ih]

/-- The removal loop raises `removalEvent d` for exactly the devices tagged
`NO_LONGER_DISCOVERED`, in list order. -/
theorem removalPass_snd (l : List Device) :
    (removalPass l).2 =
      (l.filter fun d =>
        d.discovery_status = DiscoveryStatus.NO_LONGER_DISCOVERED).map
        removalEvent := by
  induction l with
  | nil => rfl
  | cons d rest ih =>
    simp only [removalPass, List.filter_cons]
    split
    · next h => simp [h, ih]
    · next h => simp [h, ih]

theorem isRemovalEvent_removalEvent (d : Device) :
    isRemovalEvent (removalEvent d) = true := by
  unfold removalEvent; split <;> rfl

theorem mem_arrivalPass_isArrival {l : List Device} {e : HotplugEvent}
    (h : e ∈ arrivalPass l) : isArrivalEvent e = true := by
  unfold arrivalPass at h
  obtain ⟨d, _, rfl⟩ := List.mem_map.mp h
  rfl

theorem not_removal_of_arrival {e : HotplugEvent}
    (h : isArrivalEvent e = true) : isRemovalEvent e = false := by
  cases e <;> simp_all [isArrivalEvent, isRemovalEvent]

theorem mem_removalPass_snd_isRemoval {l : List Device} {e : HotplugEvent}
    (h : e ∈ (removalPass l).2) : isRemovalEvent e = true := by
  rw [removalPass_snd] at h
  obtain ⟨d, _, rfl⟩ := List.mem_map.mp h
  exact isRemovalEvent_removalEvent d

/-- C2: inside one pass with successful enumeration, every removal event
stands before every arrival event in the trace. -/
theorem removals_before_arrivals (backend : Backend) (devs : List Device)
    (hok : (windows_get_device_list backend devs).2 = LIBUSB_SUCCESS)
    (i j : Nat)
    (hi : i < (windows_refresh_device_list backend devs).2.length)
    (hj : j < (windows_refresh_device_list backend devs).2.length)
    (hrem : isRemovalEvent
      ((windows_refresh_device_list backend devs).2.get ⟨i, hi⟩) = true)
    (harr : isArrivalEvent
      ((windows_refresh_device_list backend devs).2.get ⟨j, hj⟩) = true) :
    i < j := by
  have hev : (windows_refresh_device_list backend devs).2 =
      (removalPass (windows_get_device_list backend devs).1).2 ++
        arrivalPass (removalPass (windows_get_device_list backend devs).1).1 := by
    simp [windows_refresh_device_list, hok]
  set l := (windows_get_device_list backend devs).1 with hl
  set R := (removalPass l).2 with hR
  set A := arrivalPass (removalPass l).1 with hA
  have hlen : (windows_refresh_device_list backend devs).2.length =
      R.length + A.length := by rw [hev, List.length_append]
  have hiR : i < R.length := by
    by_contra hge
    push_neg at hge
    have hjA : i - R.length < A.length := by omega
    have : (windows_refresh_device_list backend devs).2.get ⟨i, hi⟩ =
        A[i - R.length] := by
      simp only [List.get_eq_getElem]
      simp only [hev]
      rw [List.getElem_append_right hge]
    rw [this] at hrem
    have := mem_arrivalPass_isArrival (l := (removalPass l).1)
      (e := A[i - R.length]) (by exact List.getElem_mem hjA)
    rw [not_removal_of_arrival this] at hrem
    cases hrem
  have hjR : R.length ≤ j := by
    by_contra hlt
    push_neg at hlt
    have : (windows_refresh_device_list backend devs).2.get ⟨j, hj⟩ =
        R[j] := by
      simp only [List.get_eq_getElem]
      simp only [hev]
      rw [List.getElem_append_left hlt]
    rw [this] at harr
    have hmem : R[j] ∈ R := List.getElem_mem hlt
    have := mem_removalPass_snd_isRemoval (l := l) hmem
    rw [not_removal_of_arrival harr] at this
    cases this
  omega

/-- C4: enumeration failure abandons the pass: same list, no events. -/
theorem refresh_abandoned_on_enumeration_failure (backend : Backend)
    (devs : List Device)
    (hfail : (windows_get_device_list backend devs).2 ≠ LIBUSB_SUCCESS) :
    (windows_refresh_device_list backend devs).1 =
      (windows_get_device_list backend devs).1 ∧
    (windows_refresh_device_list backend devs).2 = [] ∧
    ∀ d ∈ (windows_get_device_list backend devs).1,
      d ∈ (windows_refresh_device_list backend devs).1 := by
  refine ⟨?_, ?_, ?_⟩ <;> simp [windows_refresh_device_list, hfail]

theorem refreshLoop_length (backend : Nat → Backend)
    (cs : List (List Device)) :
    ∀ k, (refreshLoop backend k cs).1.length = cs.length := by
  induction cs with
  | nil => intro k; rfl
  | cons c cs ih => intro k; simp [refreshLoop, ih (k + 1)]

theorem refreshLoop_snd (backend : Nat → Backend) (cs : List (List Device)) :
    ∀ k, (refreshLoop backend k cs).2 =
      (List.range' k cs.length).map RegistryAction.refreshCtx := by
  induction cs with
  | nil => intro k; rfl
  | cons c cs ih => intro k; simp [refreshLoop, ih (k + 1), List.range'_succ]

theorem refreshLoop_getElem? (backend : Nat → Backend)
    (cs : List (List Device)) :
    ∀ k i, (refreshLoop backend k cs).1[i]? =
      (cs[i]?).map fun c => (windows_refresh_device_list (backend (k + i)) c).1 := by
  induction cs with
  | nil => intro k i; simp [refreshLoop]
  | cons c cs ih =>
    intro k i
    cases i with
    | zero => simp [refreshLoop]
    | succ n =>
      simp only [refreshLoop, List.getElem?_cons_succ, ih (k + 1) n]
      have : k + 1 + n = k + (n + 1) := by omega
      rw [this]

theorem refreshCtx_injective : Function.Injective RegistryAction.refreshCtx := by
  intro a b h
  cases h
  rfl

/-- C5: one lock acquisition, one reconciliation per context, outcomes
independent across contexts. -/
theorem refresh_all_single_lock_every_context (backend : Nat → Backend)
    (ctxs : List (List Device)) :
    (windows_refresh_device_list_for_all_ctx backend ctxs).2 =
      RegistryAction.lockAcquire ::
        ((List.range' 0 ctxs.length).map RegistryAction.refreshCtx ++
          [RegistryAction.lockRelease]) ∧
    (windows_refresh_device_list_for_all_ctx backend ctxs).2.count
      RegistryAction.lockAcquire = 1 ∧
    (windows_refresh_device_list_for_all_ctx backend ctxs).2.count
      RegistryAction.lockRelease = 1 ∧
    (∀ i, i < ctxs.length →
      (windows_refresh_device_list_for_all_ctx backend ctxs).2.count
        (RegistryAction.refreshCtx i) = 1) ∧
    (∀ i, (windows_refresh_device_list_for_all_ctx backend ctxs).1[i]? =
      (ctxs[i]?).map fun c => (windows_refresh_device_list (backend i) c).1) := by
  have htr : (windows_refresh_device_list_for_all_ctx backend ctxs).2 =
      RegistryAction.lockAcquire ::
        ((List.range' 0 ctxs.length).map RegistryAction.refreshCtx ++
          [RegistryAction.lockRelease]) := by
    simp [windows_refresh_device_list_for_all_ctx, refreshLoop_snd]
  have hmapA : ∀ n, ((List.range' 0 n).map RegistryAction.refreshCtx).count
      RegistryAction.lockAcquire = 0 := by
    intro n
    rw [List.count_eq_zero]
    intro hmem
    obtain ⟨x, _, hx⟩ := List.mem_map.mp hmem
    cases hx
  have hmapR : ∀ n, ((List.range' 0 n).map RegistryAction.refreshCtx).count
      RegistryAction.lockRelease = 0 := by
    intro n
    rw [List.count_eq_zero]
    intro hmem
    obtain ⟨x, _, hx⟩ := List.mem_map.mp hmem
    cases hx
  refine ⟨htr, ?_, ?_, ?_, ?_⟩
  · rw [htr]
    simp [List.count_cons, List.count_append, hmapA ctxs.length]
  · rw [htr]
    simp [List.count_cons, List.count_append, hmapR ctxs.length]
  · intro i hi
    rw [htr]
    have hcnt : ((List.range' 0 ctxs.length).map RegistryAction.refreshCtx).count
        (RegistryAction.refreshCtx i) = 1 := by
      rw [List.count_map_of_injective _ _ refreshCtx_injective]
      exact List.count_eq_one_of_mem (List.nodup_range' 0 ctxs.length)
        (List.mem_range'.mpr ⟨i, hi, by omega⟩)
    simp [List.count_cons, List.count_append, hcnt]
  · intro i
    have := refreshLoop_getElem? backend ctxs 0 i
    simpa [windows_refresh_device_list_for_all_ctx] using this

/-- Every device tagged by `markNoLongerDiscovered` carries that tag. -/
theorem mem_markNoLongerDiscovered_status {devs : List Device} {m : Device}
    (h : m ∈ markNoLongerDiscovered devs) :
    m.discovery_status = DiscoveryStatus.NO_LONGER_DISCOVERED := by
  unfold markNoLongerDiscovered at h
  obtain ⟨d, _, rfl⟩ := List.mem_map.mp h
  rfl

theorem removalEvent_count_zero {xs : List Device} {i : Nat}
    (h : ∀ y ∈ xs, y.id ≠ i) :
    (xs.map removalEvent).count (HotplugEvent.disconnect i) = 0 ∧
    (xs.map removalEvent).count (HotplugEvent.detach i) = 0 := by
  induction xs with
  | nil => exact ⟨rfl, rfl⟩
  | cons x xs ih =>
    have hx : x.id ≠ i := h x (List.mem_cons_self x xs)
    obtain ⟨ih1, ih2⟩ := ih fun y hy => h y (List.mem_cons_of_mem x hy)
    by_cases hxi : x.initialized <;>
      simp [removalEvent, hxi, List.count_cons, ih1, ih2, hx, Ne.symm hx]

theorem removalEvent_count_of_mem {xs : List Device} {d : Device}
    (hnd : (xs.map Device.id).Nodup) (hd : d ∈ xs) :
    (xs.map removalEvent).count (HotplugEvent.disconnect d.id) =
      (if d.initialized then 1 else 0) ∧
    (xs.map removalEvent).count (HotplugEvent.detach d.id) =
      (if d.initialized then 0 else 1) := by
  induction xs with
  | nil => cases hd
  | cons x xs ih =>
    simp only [List.map_cons, List.nodup_cons] at hnd
    rcases List.mem_cons.mp hd with heq | hd'
    · subst heq
      have hzero : ∀ y ∈ xs, y.id ≠ d.id := by
        intro y hy hcontra
        exact hnd.1 (hcontra ▸ List.mem_map_of_mem Device.id hy)
      obtain ⟨hz1, hz2⟩ := removalEvent_count_zero hzero
      by_cases hi : d.initialized <;>
        simp [removalEvent, hi, List.count_cons, hz1, hz2]
    · have hx : x.id ≠ d.id := by
        intro hcontra
        exact hnd.1 (hcontra ▸ List.mem_map_of_mem Device.id hd')
      obtain ⟨ih1, ih2⟩ := ih hnd.2 hd'
      by_cases hxi : x.initialized <;>
        simp [removalEvent, hxi, List.count_cons, ih1, ih2, hx, Ne.symm hx]

theorem arrivalPass_count_removal_zero (l : List Device) (i : Nat) :
    (arrivalPass l).count (HotplugEvent.disconnect i) = 0 ∧
    (arrivalPass l).count (HotplugEvent.detach i) = 0 := by
  constructor <;>
  · rw [List.count_eq_zero]
    intro hmem
    have := mem_arrivalPass_isArrival hmem
    simp [isArrivalEvent] at this

/-- C3: a device still tagged stale after enumeration gets exactly one
removal call, of the kind its `initialized` flag selects, and leaves the
list. -/
theorem stale_device_exactly_one_removal (backend : Backend)
    (devs : List Device)
    (hok : (windows_get_device_list backend devs).2 = LIBUSB_SUCCESS)
    (hnd : ((windows_get_device_list backend devs).1.map Device.id).Nodup)
    (d : Device) (hd : d ∈ (windows_get_device_list backend devs).1)
    (hst : d.discovery_status = DiscoveryStatus.NO_LONGER_DISCOVERED) :
    ((windows_refresh_device_list backend devs).2.count
        (HotplugEvent.disconnect d.id) = if d.initialized then 1 else 0) ∧
    ((windows_refresh_device_list backend devs).2.count
        (HotplugEvent.detach d.id) = if d.initialized then 0 else 1) ∧
    (∀ d' ∈ (windows_refresh_device_list backend devs).1, d'.id ≠ d.id) := by
  have hev : (windows_refresh_device_list backend devs).2 =
      (removalPass (windows_get_device_list backend devs).1).2 ++
        arrivalPass (removalPass (windows_get_device_list backend devs).1).1 := by
    simp [windows_refresh_device_list, hok]
  have hfst : (windows_refresh_device_list backend devs).1 =
      (windows_get_device_list backend devs).1.filter
        fun x => x.discovery_status ≠ DiscoveryStatus.NO_LONGER_DISCOVERED := by
    simp [windows_refresh_device_list, hok, removalPass_fst]
  set l := (windows_get_device_list backend devs).1 with hl
  have hsub : List.Sublist (l.filter fun x =>
      x.discovery_status = DiscoveryStatus.NO_LONGER_DISCOVERED) l :=
    List.filter_sublist l
  have hndf : ((l.filter fun x =>
      x.discovery_status = DiscoveryStatus.NO_LONGER_DISCOVERED).map
        Device.id).Nodup :=
    (hsub.map Device.id).nodup hnd
  have hdf : d ∈ l.filter fun x =>
      x.discovery_status = DiscoveryStatus.NO_LONGER_DISCOVERED :=
    List.mem_filter.mpr ⟨hd, by simp [hst]⟩
  obtain ⟨hc1, hc2⟩ := removalEvent_count_of_mem hndf hdf
  obtain ⟨ha1, ha2⟩ := arrivalPass_count_removal_zero
    (removalPass l).1 d.id
  refine ⟨?_, ?_, ?_⟩
  · rw [hev, List.count_append, removalPass_snd, hc1, ha1]
    omega
  · rw [hev, List.count_append, removalPass_snd, hc2, ha2]
    omega
  · intro d' hd'
    rw [hfst] at hd'
    obtain ⟨hd'l, hd'p⟩ := List.mem_filter.mp hd'
    intro hcontra
    have : d' = d := List.inj_on_of_nodup_map hnd hd'l hd hcontra
    subst this
    simp [hst] at hd'p

/-- C9: a device the adapter tagged `STILL_PRESENT` stays in the list and
no event of the pass names it. -/
theorem still_present_device_untouched (backend : Backend)
    (devs : List Device)
    (hok : (windows_get_device_list backend devs).2 = LIBUSB_SUCCESS)
    (hnd : ((windows_get_device_list backend devs).1.map Device.id).Nodup)
    (d : Device) (hd : d ∈ (windows_get_device_list backend devs).1)
    (hst : d.discovery_status = DiscoveryStatus.STILL_PRESENT) :
    d ∈ (windows_refresh_device_list backend devs).1 ∧
    ∀ e ∈ (windows_refresh_device_list backend devs).2,
      e ≠ HotplugEvent.disconnect d.id ∧ e ≠ HotplugEvent.detach d.id ∧
        e ≠ HotplugEvent.arrived d.id := by
  have hev : (windows_refresh_device_list backend devs).2 =
      (removalPass (windows_get_device_list backend devs).1).2 ++
        arrivalPass (removalPass (windows_get_device_list backend devs).1).1 := by
    simp [windows_refresh_device_list, hok]
  have hfst : (windows_refresh_device_list backend devs).1 =
      (windows_get_device_list backend devs).1.filter
        fun x => x.discovery_status ≠ DiscoveryStatus.NO_LONGER_DISCOVERED := by
    simp [windows_refresh_device_list, hok, removalPass_fst]
  set l := (windows_get_device_list backend devs).1 with hl
  have hid : ∀ y ∈ l, y.discovery_status ≠ DiscoveryStatus.STILL_PRESENT →
      y.id ≠ d.id := by
    intro y hy hys hcontra
    exact hys ((List.inj_on_of_nodup_map hnd hy hd hcontra) ▸ hst)
  constructor
  · rw [hfst]
    exact List.mem_filter.mpr ⟨hd, by simp [hst]⟩
  · intro e he
    rw [hev] at he
    rcases List.mem_append.mp he with hR | hA
    · rw [removalPass_snd] at hR
      obtain ⟨y, hy, rfl⟩ := List.mem_map.mp hR
      obtain ⟨hyl, hyp⟩ := List.mem_filter.mp hy
      have hyne : y.id ≠ d.id := by
        refine hid y hyl ?_
        intro hcontra
        rw [hcontra] at hyp
        simp at hyp
      unfold removalEvent
      split <;> simp [hyne]
    · unfold arrivalPass at hA
      obtain ⟨y, hy, rfl⟩ := List.mem_map.mp hA
      obtain ⟨hyl, hyp⟩ := List.mem_filter.mp hy
      have hyl' : y ∈ l := by
        rw [removalPass_fst] at hyl
        exact (List.mem_filter.mp hyl).1
      have hyne : y.id ≠ d.id := by
        refine hid y hyl' ?_
        intro hcontra
        rw [hcontra] at hyp
        simp at hyp
      simp [hyne]

/-- C6: the reconciler tags everything stale before the adapter runs, so
afterwards `STILL_PRESENT`/`NEWLY_DISCOVERED` means seen and a surviving
`NO_LONGER_DISCOVERED` tag means confirmed absent. -/
theorem mark_all_before_enumeration (backend : Backend)
    (present : List Nat) (devs : List Device) :
    windows_get_device_list backend devs =
      backend (markNoLongerDiscovered devs) ∧
    (∀ m ∈ markNoLongerDiscovered devs,
      m.discovery_status = DiscoveryStatus.NO_LONGER_DISCOVERED) ∧
    ∀ d ∈ (windows_get_device_list (specBackend present) devs).1,
      ((d.discovery_status = DiscoveryStatus.STILL_PRESENT ∨
          d.discovery_status = DiscoveryStatus.NEWLY_DISCOVERED) →
        d.id ∈ present) ∧
      (d.discovery_status = DiscoveryStatus.NO_LONGER_DISCOVERED →
        d.id ∉ present) := by
  refine ⟨rfl, fun m hm => mem_markNoLongerDiscovered_status hm, ?_⟩
  intro d hd
  have hd' : d ∈ adapter_get_device_list present (markNoLongerDiscovered devs) := hd
  unfold adapter_get_device_list at hd'
  rcases List.mem_append.mp hd' with hmap | hnew
  · obtain ⟨m, hm, heq⟩ := List.mem_map.mp hmap
    have hms := mem_markNoLongerDiscovered_status hm
    by_cases hidp : m.id ∈ present
    · rw [if_pos hidp] at heq
      subst heq
      exact ⟨fun _ => hidp, fun hc => by simp at hc⟩
    · rw [if_neg hidp] at heq
      subst heq
      refine ⟨fun hc => ?_, fun _ => hidp⟩
      rcases hc with hc | hc <;> rw [hms] at hc <;> cases hc
  · obtain ⟨i, hi, heq⟩ := List.mem_map.mp hnew
    have hip : i ∈ present := (List.mem_filter.mp hi).1
    subst heq
    exact ⟨fun _ => hip, fun hc => by cases hc⟩

/-- C1 (counterexample): with `CreateThread` succeeding and the window
class registration failing, the thread exits before its wait loop, yet
`windows_start_event_monitor` has returned `LIBUSB_SUCCESS`. -/
theorem start_success_despite_subscription_failure_cex :
    (windows_start_event_monitor envRegisterClassFails).1 = LIBUSB_SUCCESS ∧
    LIBUSB_SUCCESS ≠ LIBUSB_ERROR_OTHER ∧
    (windows_event_thread_main envRegisterClassFails).reachedLoop = false ∧
    (windows_event_thread_main envRegisterClassFails).exitCode =
      some (-1) := by
  refine ⟨rfl, by decide, rfl, rfl⟩

/-- C1 (amended): a subscription failure is terminal for the thread, no
thread stays running and a later stop succeeds doing nothing, but the
lifecycle controller does not observe it: start has already returned
`LIBUSB_SUCCESS`. -/
theorem subscription_failure_terminal_unobserved_by_start (env : OsEnv)
    (hct : env.createThreadOk = true)
    (hsub : init_wnd_class env = false ∨ createWindowResult env = false) :
    (windows_event_thread_main env).reachedLoop = false ∧
    (windows_event_thread_main env).exitCode = some (-1) ∧
    (windows_start_event_monitor env).1 = LIBUSB_SUCCESS ∧
    (windows_start_event_monitor env).2.threadRunning = false ∧
    windows_stop_event_monitor env (windows_start_event_monitor env).2 =
      ⟨LIBUSB_SUCCESS, [], []⟩ := by
  obtain ⟨ct, rc, cw, rn, sm, wo, ch⟩ := env
  revert hct hsub
  cases ct <;> cases rc <;> cases cw <;> cases rn <;> cases sm <;>
    cases wo <;> cases ch <;> decide

theorem subscription_failure_terminal_unobserved_by_start_witness :
    envRegisterClassFails.createThreadOk = true ∧
    init_wnd_class envRegisterClassFails = false ∧
    (windows_start_event_monitor envRegisterClassFails).2.threadRunning =
      false := by
  refine ⟨by decide, by decide, ?_⟩
  exact (subscription_failure_terminal_unobserved_by_start
    envRegisterClassFails (by decide) (Or.inl (by decide))).2.2.2.1

/-- C7 (counterexample): with the monitor started, a failing
`SendMessage` is logged but the call still returns `LIBUSB_SUCCESS`: the
signaling failure is not converted into a reported error. -/
theorem stop_sendmessage_failure_not_reported_cex :
    envSendMessageFails.sendMessageOk = false ∧
    startedMonitorState.windows_event_hWnd = true ∧
    (windows_stop_event_monitor envSendMessageFails
      startedMonitorState).logs = ["SendMessage"] ∧
    (windows_stop_event_monitor envSendMessageFails
      startedMonitorState).ret = LIBUSB_SUCCESS := by
  refine ⟨rfl, rfl, rfl, rfl⟩

/-- C7 (amended): once started, stop attempts every cleanup step with no
early return; a join or handle-release failure is logged and reported as
`LIBUSB_ERROR_OTHER`, while a `SendMessage` failure is logged only and
leaves the return value untouched. -/
theorem stop_best_effort_cleanup (env : OsEnv) (st : MonitorState)
    (h : st.windows_event_hWnd = true) :
    (windows_stop_event_monitor env st).steps =
      [StopStep.sendClose, StopStep.joinThread,
        StopStep.closeThreadHandle] ∧
    (env.sendMessageOk = false →
      "SendMessage" ∈ (windows_stop_event_monitor env st).logs) ∧
    (env.waitObjectOk = false →
      "WaitForSingleObject" ∈ (windows_stop_event_monitor env st).logs ∧
      (windows_stop_event_monitor env st).ret = LIBUSB_ERROR_OTHER) ∧
    (env.closeHandleOk = false →
      "WaitForSingleObject" ∈ (windows_stop_event_monitor env st).logs ∧
      (windows_stop_event_monitor env st).ret = LIBUSB_ERROR_OTHER) ∧
    ((windows_stop_event_monitor env st).ret = LIBUSB_SUCCESS ↔
      env.waitObjectOk = true ∧ env.closeHandleOk = true) := by
  obtain ⟨ct, rc, cw, rn, sm, wo, ch⟩ := env
  obtain ⟨hw, th, tr⟩ := st
  revert h
  cases ct <;> cases rc <;> cases cw <;> cases rn <;> cases sm <;>
    cases wo <;> cases ch <;> cases hw <;> cases th <;> cases tr <;> decide

theorem stop_best_effort_cleanup_witness :
    startedMonitorState.windows_event_hWnd = true ∧
    (windows_stop_event_monitor envSendMessageFails
      startedMonitorState).steps =
      [StopStep.sendClose, StopStep.joinThread,
        StopStep.closeThreadHandle] := by
  refine ⟨by decide, ?_⟩
  exact (stop_best_effort_cleanup envSendMessageFails startedMonitorState
    (by decide)).1

/-- C8: stop before any start: success, and no step of the teardown is
even attempted. -/
theorem stop_without_start_is_silent_success (env : OsEnv) :
    windows_stop_event_monitor env initialMonitorState =
      ⟨LIBUSB_SUCCESS, [], []⟩ := rfl

/-- C10: stop is keyed on `windows_event_hWnd` alone: its behaviour is
the same for any two states agreeing on that handle, and after a start
whose thread failed to create its window, stop returns success at once
although the thread handle exists. -/
theorem stop_keyed_solely_on_window_handle (env : OsEnv)
    (hct : env.createThreadOk = true)
    (hsub : (windows_event_thread_main env).hWndSet = false) :
    (windows_start_event_monitor env).2.windows_event_thread_handle =
      true ∧
    (windows_start_event_monitor env).2.windows_event_hWnd = false ∧
    windows_stop_event_monitor env (windows_start_event_monitor env).2 =
      ⟨LIBUSB_SUCCESS, [], []⟩ ∧
    ∀ st st' : MonitorState,
      st.windows_event_hWnd = st'.windows_event_hWnd →
        windows_stop_event_monitor env st =
          windows_stop_event_monitor env st' := by
  refine ⟨?_, ?_, ?_, fun st st' he => ?_⟩
  · obtain ⟨ct, rc, cw, rn, sm, wo, ch⟩ := env
    revert hct hsub
    cases ct <;> cases rc <;> cases cw <;> cases rn <;> cases sm <;>
      cases wo <;> cases ch <;> decide
  · obtain ⟨ct, rc, cw, rn, sm, wo, ch⟩ := env
    revert hct hsub
    cases ct <;> cases rc <;> cases cw <;> cases rn <;> cases sm <;>
      cases wo <;> cases ch <;> decide
  · obtain ⟨ct, rc, cw, rn, sm, wo, ch⟩ := env
    revert hct hsub
    cases ct <;> cases rc <;> cases cw <;> cases rn <;> cases sm <;>
      cases wo <;> cases ch <;> decide
  · unfold windows_stop_event_monitor
    rw [he]

theorem stop_keyed_solely_on_window_handle_witness :
    envRegisterClassFails.createThreadOk = true ∧
    (windows_event_thread_main envRegisterClassFails).hWndSet = false ∧
    windows_stop_event_monitor envRegisterClassFails
      (windows_start_event_monitor envRegisterClassFails).2 =
      ⟨LIBUSB_SUCCESS, [], []⟩ := by
  refine ⟨by decide, by decide, ?_⟩
  exact (stop_keyed_solely_on_window_handle envRegisterClassFails
    (by decide) (by decide)).2.2.1

theorem removals_before_arrivals_witness :
    (0 : Nat) < 1 ∧
    (windows_refresh_device_list (specBackend [1, 3]) devsW).2 =
      [HotplugEvent.disconnect 2, HotplugEvent.arrived 3] :=
  ⟨removals_before_arrivals (specBackend [1, 3]) devsW (by decide) 0 1
      (by decide) (by decide) (by decide) (by decide),
    by decide⟩

theorem stale_device_exactly_one_removal_witness :
    (windows_refresh_device_list (specBackend [1, 3]) devsW).2.count
      (HotplugEvent.disconnect 2) = 1 :=
  (stale_device_exactly_one_removal (specBackend [1, 3]) devsW (by decide)
    (by decide) ⟨2, DiscoveryStatus.NO_LONGER_DISCOVERED, true⟩
    (by decide) rfl).1

theorem refresh_abandoned_on_enumeration_failure_witness :
    (windows_refresh_device_list (failingBackend LIBUSB_ERROR_OTHER)
      devsW).2 = [] :=
  (refresh_abandoned_on_enumeration_failure
    (failingBackend LIBUSB_ERROR_OTHER) devsW (by decide)).2.1

theorem refresh_all_single_lock_every_context_witness :
    (windows_refresh_device_list_for_all_ctx backendMixed ctxsW).2.count
      (RegistryAction.refreshCtx 1) = 1 :=
  (refresh_all_single_lock_every_context backendMixed ctxsW).2.2.2.1 1
    (by decide)

theorem mark_all_before_enumeration_witness :
    (⟨2, DiscoveryStatus.NO_LONGER_DISCOVERED, true⟩ : Device) ∈
      (windows_get_device_list (specBackend [1, 3]) devsW).1 ∧
    (2 : Nat) ∉ [1, 3] :=
  ⟨by decide,
    ((mark_all_before_enumeration (specBackend [1, 3]) [1, 3] devsW).2.2
      ⟨2, DiscoveryStatus.NO_LONGER_DISCOVERED, true⟩ (by decide)).2 rfl⟩

theorem still_present_device_untouched_witness :
    (⟨1, DiscoveryStatus.STILL_PRESENT, true⟩ : Device) ∈
      (windows_refresh_device_list (specBackend [1, 3]) devsW).1 :=
  (still_present_device_untouched (specBackend [1, 3]) devsW (by decide)
    (by decide) ⟨1, DiscoveryStatus.STILL_PRESENT, true⟩ (by decide)
    rfl).1
